import Mathlib

/-!
Verification of the Proportional Image Resizer batch pipeline.

The repository ships two implementations of the same tool:
* `pir.pyw` — the PyQt6 app: `resize_image_task` (per-image worker),
  `BatchProcessor` (coordinator thread), `ResizerApp.process_incoming_paths`
  (path scanner), `ResizerApp.job_finished` (completion handler);
* the older tkinter app: `ImageResizer.resize_image`,
  `ImageResizer.resize_images`.

This file shallowly embeds the arithmetic and control flow of both.
Python float division is modelled as exact rational arithmetic (`ℚ`) and
Python's `int(...)` truncation toward zero as `pyInt`.  File paths are
modelled as lists of path components; filesystem and image-codec effects
are modelled by explicit outcome parameters.
-/

namespace PIR

/-- Action classification computed by `resize_image_task` (pir.pyw lines
153–158): `Upscaled` when `ratio > 1`, `Downscaled` when `ratio < 1`,
`Copied` when `ratio == 1`. -/
inductive Action
  | Upscaled
  | Downscaled
  | Copied
  deriving DecidableEq

/-- Python `int(x)` on a rational: truncation toward zero. -/
def pyInt (x : ℚ) : ℤ :=
  if 0 ≤ x then ⌊x⌋ else ⌈x⌉

/-- Result of the per-image resize computation of `resize_image_task`
(pir.pyw lines 140–161): the scale `ratio`, the computed dimensions
`new_w`, `new_h`, the action classification, and whether `img.resize`
was invoked (`ratio != 1.0`). -/
structure Plan where
  ratio : ℚ
  new_w : ℤ
  new_h : ℤ
  action : Action
  resized : Bool
  deriving DecidableEq

/-- The dimension computation of `resize_image_task` (pir.pyw lines
140–161).  `if current_w >= current_h: ratio = target/current_w;
new_w = target; new_h = int(current_h * ratio)`, symmetrically otherwise;
action from the sign of `ratio - 1`; `img.resize` called iff
`ratio != 1.0`. -/
def resizePlan (current_w current_h target_long_side : ℕ) : Plan :=
  if current_h ≤ current_w then
    let ratio : ℚ := (target_long_side : ℚ) / (current_w : ℚ)
    { ratio := ratio
      new_w := (target_long_side : ℤ)
      new_h := pyInt ((current_h : ℚ) * ratio)
      action := if 1 < ratio then Action.Upscaled
                else if ratio < 1 then Action.Downscaled
                else Action.Copied
      resized := if ratio = 1 then false else true }
  else
    let ratio : ℚ := (target_long_side : ℚ) / (current_h : ℚ)
    { ratio := ratio
      new_w := pyInt ((current_w : ℚ) * ratio)
      new_h := (target_long_side : ℤ)
      action := if 1 < ratio then Action.Upscaled
                else if ratio < 1 then Action.Downscaled
                else Action.Copied
      resized := if ratio = 1 then false else true }

/-- The final write performed by a worker on its success path: either a
re-encode of the decoded (possibly resized) pixel buffer (`img.save` /
`resized_image.save`), or a chunked byte-for-byte copy of the source
file. -/
inductive WriteOp
  | save (w h : ℤ)
  | copyBytes
  deriving DecidableEq

/-- The write performed by `resize_image_task` on its success path
(pir.pyw line 163): `img.save(output_path, quality=90, optimize=True)`
is executed unconditionally — there is no binary-copy branch, even when
the action is `Copied`. -/
def resize_image_task_write (current_w current_h target_long_side : ℕ) : WriteOp :=
  WriteOp.save (resizePlan current_w current_h target_long_side).new_w
    (resizePlan current_w current_h target_long_side).new_h

/-- Result of the tkinter `ImageResizer.resize_image` (pir.pyw lines
609–648): computed dimensions and the write performed. -/
structure TkResult where
  new_width : ℤ
  new_height : ℤ
  write : WriteOp
  deriving DecidableEq

/-- The tkinter `ImageResizer.resize_image` (pir.pyw lines 609–648):
`longest_dimension = max(width, height)`; if it differs from `max_size`
the dimensions are recomputed (branching on `width > height`, strict)
and the resized image is saved; otherwise the source file is copied in
binary chunks. -/
def tk_resize_image (width height max_size : ℕ) : TkResult :=
  let longest_dimension := max width height
  if longest_dimension ≠ max_size then
    if height < width then
      let new_width : ℤ := (max_size : ℤ)
      let new_height := pyInt ((height : ℚ) * ((max_size : ℚ) / (width : ℚ)))
      { new_width := new_width, new_height := new_height
        write := WriteOp.save new_width new_height }
    else
      let new_height : ℤ := (max_size : ℤ)
      let new_width := pyInt ((width : ℚ) * ((max_size : ℚ) / (height : ℚ)))
      { new_width := new_width, new_height := new_height
        write := WriteOp.save new_width new_height }
  else
    { new_width := (width : ℤ), new_height := (height : ℤ)
      write := WriteOp.copyBytes }

/-- Rendering of an action as in the worker's result message. -/
def actionName : Action → String
  | Action.Upscaled => "Upscaled"
  | Action.Downscaled => "Downscaled"
  | Action.Copied => "Copied"

/-- Outcome of decoding the source image (`Image.open`): success with
pixel dimensions, `UnidentifiedImageError`, or some other exception. -/
inductive DecodeOutcome
  | ok (w h : ℕ)
  | unidentified
  | failed (msg : String)
  deriving DecidableEq

/-- The effects a single task can encounter, abstracting the filesystem
and codec: the file's base name, the decode outcome, and an exception
message raised by `img.save` (if any). -/
structure TaskEnv where
  name : String
  decode : DecodeOutcome
  saveError : Option String
  deriving DecidableEq

/-- Classified return value of `resize_image_task`: the function returns
a string; `done` carries the success message, `skipped` the
`UnidentifiedImageError` message, `errored` the generic exception
message. -/
inductive TaskOutcome
  | done (action : Action) (msg : String)
  | skipped (msg : String)
  | errored (msg : String)
  deriving DecidableEq

/-- The success message built at pir.pyw line 165. -/
def resultMsg (name : String) (current_w current_h : ℕ) (p : Plan) : String :=
  actionName p.action ++ ": " ++ name ++ " (" ++ toString current_w ++ "x"
    ++ toString current_h ++ " -> " ++ toString p.new_w ++ "x" ++ toString p.new_h ++ ")"

/-- Control flow of `resize_image_task` (pir.pyw lines 124–170): the
whole body sits in a `try` block; `except UnidentifiedImageError`
returns the `Skipped (Invalid/Corrupt Image)` message, `except
Exception` returns the `Error (...)` message (this clause also covers a
failure inside `img.save`).  A total function: every task environment
yields exactly one outcome. -/
def resize_image_task (env : TaskEnv) (target_long_side : ℕ) : TaskOutcome :=
  match env.decode with
  | DecodeOutcome.unidentified =>
      TaskOutcome.skipped ("Skipped (Invalid/Corrupt Image): " ++ env.name)
  | DecodeOutcome.failed msg =>
      TaskOutcome.errored ("Error (" ++ env.name ++ "): " ++ msg)
  | DecodeOutcome.ok w h =>
      match env.saveError with
      | some msg => TaskOutcome.errored ("Error (" ++ env.name ++ "): " ++ msg)
      | none =>
          TaskOutcome.done (resizePlan w h target_long_side).action
            (resultMsg env.name w h (resizePlan w h target_long_side))

/-- Observable events emitted by `BatchProcessor.run`: log messages
(`log_message.emit`), progress updates (`progress.emit`, carried here as
the exact pair completed/total rather than the float percentage), and
the `finished` signal. -/
inductive Event
  | log (msg : String)
  | progress (completed total : ℕ)
  | finished
  deriving DecidableEq

/-- The log message emitted on cancellation (pir.pyw line 205). -/
def cancelMsg : String := "!!! Operation Cancelled !!!"

/-- Whether the stop flag (`_is_running == False`) is observed at loop
iteration `i` (0-based): `cancelAt = some k` means `stop()` took effect
before iteration `k`. -/
def cancelObserved : Option ℕ → ℕ → Bool
  | none, _ => false
  | some k, i => k ≤ i

/-- The `for future in as_completed(futures)` loop of
`BatchProcessor.run` (pir.pyw lines 202–215): `results` is the list of
per-task result messages in completion order, `done` the number already
consumed, `total` the task count.  If the stop flag is observed the
cancellation message is logged and the loop breaks; otherwise the result
is logged and a progress update is emitted. -/
def procEvents : List String → ℕ → ℕ → Option ℕ → List Event
  | [], _, _, _ => []
  | r :: rs, done, total, cancelAt =>
    if cancelObserved cancelAt done then [Event.log cancelMsg]
    else Event.log r :: Event.progress (done + 1) total :: procEvents rs (done + 1) total cancelAt

/-- `BatchProcessor.run` (pir.pyw lines 187–217): with no tasks it emits
`finished` immediately; otherwise it runs the completion loop and then
emits `finished` — on the cancelled path as well, since
`self.finished.emit()` follows the `with` block unconditionally. -/
def runTrace (results : List String) (cancelAt : Option ℕ) : List Event :=
  if results.length = 0 then [Event.finished]
  else procEvents results 0 results.length cancelAt ++ [Event.finished]

/-- The message box shown by `ResizerApp.job_finished` (pir.pyw line
506) whenever the `finished` signal arrives — the same text after a
cancelled run as after a normal one. -/
def jobFinishedText : String := "Batch Processing Complete!"

/-- Abstract filesystem as seen by `ResizerApp.process_incoming_paths`:
`isFile`/`isDir` answer `Path.is_file()`/`Path.is_dir()` (both false for
a non-existent path), `rglob` lists every item under a directory
(`p.rglob("*")`), and `suffix` gives `Path.suffix.lower()`. -/
structure FS where
  isFile : String → Bool
  isDir : String → Bool
  rglob : String → List String
  suffix : String → String

/-- `ResizerApp.EXTENSIONS` (pir.pyw line 276). -/
def EXTENSIONS : List String :=
  [".jpg", ".jpeg", ".png", ".webp", ".bmp", ".tiff", ".tif", ".jfif"]

/-- The per-path branch of `process_incoming_paths` (pir.pyw lines
411–423): a file is kept iff its lowered suffix is recognized; a
directory contributes its recursively enumerated files under the same
filter; a path that is neither file nor directory contributes
nothing. -/
def scanPath (fs : FS) (p : String) : List String :=
  if fs.isFile p then
    if EXTENSIONS.contains (fs.suffix p) then [p] else []
  else if fs.isDir p then
    (fs.rglob p).filter (fun item => fs.isFile item && EXTENSIONS.contains (fs.suffix item))
  else []

/-- `new_files` accumulated over the incoming paths in order. -/
def collectNewFiles (fs : FS) (paths : List String) : List String :=
  paths.foldr (fun p acc => scanPath fs p ++ acc) []

/-- `self.input_files.update(new_files)` — set union, modelled on
duplicate-free lists by appending the not-yet-present elements. -/
def setUpdate (s : List String) (xs : List String) : List String :=
  xs.foldl (fun acc x => if acc.contains x then acc else acc ++ [x]) s

/-- `ResizerApp.process_incoming_paths` (pir.pyw lines 403–440),
restricted to its observable core: returns the updated queue and the
log lines emitted.  `added = final_count - initial_count`; when
`added > 0` the "Added N images" line is logged, otherwise the
"No new valid images found" line.  (The queue-label update and the
default output-directory assignment are GUI state, not modelled.) -/
def process_incoming_paths (fs : FS) (input_files : List String) (paths : List String) :
    List String × List String :=
  let new_files := collectNewFiles fs paths
  let updated := setUpdate input_files new_files
  let added := updated.length - input_files.length
  let logs := if 0 < added
    then ["Added " ++ toString added ++ " images to queue."]
    else ["No new valid images found (ignored non-images)."]
  (updated, logs)

/-- Paths are modelled as lists of components (what `os.path.join`
separates with the OS separator). `os.path.relpath(file, root)` for a
file lying beneath `root` drops the root's components. -/
def relpath (file root : List String) : List String :=
  file.drop root.length

/-- Destination path used by the tkinter `ImageResizer.resize_images`
(pir.pyw lines 578–581): `os.path.join(selected_folder, "Resized")`
joined with `os.path.relpath(file_path, selected_folder)`. -/
def tk_output_path (selected_folder file : List String) : List String :=
  (selected_folder ++ ["Resized"]) ++ relpath file selected_folder

/-- `Path.name`: the final component of a path. -/
def baseName (p : List String) : String :=
  p.getLastD ""

/-- Destination path used by the PyQt worker `resize_image_task`
(pir.pyw line 130): `output_folder / file_path.name` — the output folder
joined with the source's base name only. -/
def pyqt_output_path (output_folder file : List String) : List String :=
  output_folder ++ [baseName file]

/-- A concrete task environment: a file that fails to decode
(`UnidentifiedImageError`). -/
def envSkipEx : TaskEnv :=
  { name := "bad.jpg", decode := DecodeOutcome.unidentified, saveError := none }

/-- A concrete filesystem: one valid image file "good.jpg"; every other
path is neither a file nor a directory (it does not exist). -/
def fsEx : FS :=
  { isFile := fun p => p == "good.jpg"
    isDir := fun _ => false
    rglob := fun _ => []
    suffix := fun p => if p == "good.jpg" then ".jpg" else "" }

/-! ### Arithmetic helper lemmas -/

/-- `int(s * (t / l))` in exact arithmetic is the natural floor division
`s * t / l`. -/
theorem pyInt_scale (s t l : ℕ) :
    pyInt ((s : ℚ) * ((t : ℚ) / (l : ℚ))) = ((s * t / l : ℕ) : ℤ) := by
  have hx : (0 : ℚ) ≤ (s : ℚ) * ((t : ℚ) / (l : ℚ)) := by positivity
  rw [pyInt, if_pos hx]
  have hdiv : (s : ℚ) * ((t : ℚ) / (l : ℚ)) = ((s * t : ℕ) : ℚ) / ((l : ℕ) : ℚ) := by
    push_cast
    ring
  rw [hdiv, Rat.floor_natCast_div_natCast]
  exact (Int.ofNat_tdiv _ _).symm

/-- Scaling the shorter side of an image down to the target never
exceeds the target: if `s ≤ l` then `s * t / l ≤ t`. -/
theorem short_le_target (s t l : ℕ) (hl : 0 < l) (hsl : s ≤ l) : s * t / l ≤ t := by
  calc s * t / l ≤ l * t / l := Nat.div_le_div_right (Nat.mul_le_mul_right t hsl)
    _ = t := Nat.mul_div_cancel_left t hl

theorem resizePlan_new_w_of_le (w h t : ℕ) (hle : h ≤ w) :
    (resizePlan w h t).new_w = (t : ℤ) := by
  simp [resizePlan, hle]

theorem resizePlan_new_h_of_le (w h t : ℕ) (hle : h ≤ w) :
    (resizePlan w h t).new_h = ((h * t / w : ℕ) : ℤ) := by
  simp [resizePlan, hle, pyInt_scale]

theorem resizePlan_action_of_le (w h t : ℕ) (hle : h ≤ w) :
    (resizePlan w h t).action =
      (if 1 < (t : ℚ) / (w : ℚ) then Action.Upscaled
       else if (t : ℚ) / (w : ℚ) < 1 then Action.Downscaled else Action.Copied) := by
  simp only [resizePlan, if_pos hle]

theorem resizePlan_resized_of_le (w h t : ℕ) (hle : h ≤ w) :
    (resizePlan w h t).resized = (if (t : ℚ) / (w : ℚ) = 1 then false else true) := by
  simp only [resizePlan, if_pos hle]

theorem resizePlan_new_h_of_lt (w h t : ℕ) (hlt : w < h) :
    (resizePlan w h t).new_h = (t : ℤ) := by
  have hn : ¬ h ≤ w := not_le.2 hlt
  simp [resizePlan, hn]

theorem resizePlan_new_w_of_lt (w h t : ℕ) (hlt : w < h) :
    (resizePlan w h t).new_w = ((w * t / h : ℕ) : ℤ) := by
  have hn : ¬ h ≤ w := not_le.2 hlt
  simp [resizePlan, hn, pyInt_scale]

theorem resizePlan_action_of_lt (w h t : ℕ) (hlt : w < h) :
    (resizePlan w h t).action =
      (if 1 < (t : ℚ) / (h : ℚ) then Action.Upscaled
       else if (t : ℚ) / (h : ℚ) < 1 then Action.Downscaled else Action.Copied) := by
  have hn : ¬ h ≤ w := not_le.2 hlt
  simp only [resizePlan, if_neg hn]

theorem resizePlan_resized_of_lt (w h t : ℕ) (hlt : w < h) :
    (resizePlan w h t).resized = (if (t : ℚ) / (h : ℚ) = 1 then false else true) := by
  have hn : ¬ h ≤ w := not_le.2 hlt
  simp only [resizePlan, if_neg hn]

/-! ### Claim theorems -/

/-- C1: for positive `w`, `h`, `target_edge`, the computed target
dimensions have maximum exactly `target_edge` whenever
`max w h ≠ target_edge`; and when `max w h = target_edge` the plan is
the identity: action `Copied`, no resampling, dimensions unchanged. -/
theorem resizePlan_longest_edge (w h t : ℕ) (hw : 0 < w) (hh : 0 < h) (_ht : 0 < t) :
    (max w h ≠ t → max (resizePlan w h t).new_w (resizePlan w h t).new_h = (t : ℤ)) ∧
    (max w h = t → (resizePlan w h t).action = Action.Copied ∧
      (resizePlan w h t).resized = false ∧
      (resizePlan w h t).new_w = (w : ℤ) ∧ (resizePlan w h t).new_h = (h : ℤ)) := by
  rcases le_or_lt h w with hle | hlt
  · have hmax : max w h = w := max_eq_left hle
    rw [resizePlan_new_w_of_le w h t hle, resizePlan_new_h_of_le w h t hle,
        resizePlan_action_of_le w h t hle, resizePlan_resized_of_le w h t hle, hmax]
    constructor
    · intro _
      have hb : h * t / w ≤ t := short_le_target h t w hw hle
      exact max_eq_left (by exact_mod_cast hb)
    · intro heq
      subst heq
      have hr : (w : ℚ) / (w : ℚ) = 1 := div_self (by exact_mod_cast hw.ne')
      rw [hr]
      norm_num [Nat.mul_div_cancel _ hw]
  · have hmax : max w h = h := max_eq_right hlt.le
    rw [resizePlan_new_w_of_lt w h t hlt, resizePlan_new_h_of_lt w h t hlt,
        resizePlan_action_of_lt w h t hlt, resizePlan_resized_of_lt w h t hlt, hmax]
    constructor
    · intro _
      have hb : w * t / h ≤ t := short_le_target w t h hh hlt.le
      exact max_eq_right (by exact_mod_cast hb)
    · intro heq
      subst heq
      have hr : (h : ℚ) / (h : ℚ) = 1 := div_self (by exact_mod_cast hh.ne')
      rw [hr]
      norm_num [Nat.mul_div_cancel _ hh]

/-- C1 witness: a 2000×1000 image at target 1000 gets longest target
edge exactly 1000. -/
theorem resizePlan_longest_edge_witness :
    max (resizePlan 2000 1000 1000).new_w (resizePlan 2000 1000 1000).new_h = (1000 : ℤ) :=
  (resizePlan_longest_edge 2000 1000 1000 (by norm_num) (by norm_num) (by norm_num)).1
    (by norm_num)

/-- C2: at a 500×1000 image with target 1000 the action is `Copied`
and no resampling happens, yet `resize_image_task` still writes by
re-encoding the decoded image (`img.save(..., quality=90,
optimize=True)`), not by a binary copy; the older tkinter
`ImageResizer.resize_image` does perform the byte-for-byte copy there. -/
theorem identity_write_reencodes :
    (resizePlan 500 1000 1000).action = Action.Copied ∧
    (resizePlan 500 1000 1000).resized = false ∧
    resize_image_task_write 500 1000 1000 = WriteOp.save 500 1000 ∧
    resize_image_task_write 500 1000 1000 ≠ WriteOp.copyBytes ∧
    (tk_resize_image 500 1000 1000).write = WriteOp.copyBytes := by
  norm_num [resizePlan, pyInt, resize_image_task_write, tk_resize_image]
  decide

/-- C3 counterexample: a 3×1 image at target 2 gets short target side
`int(1 * (2/3)) = 0` — the code truncates (the nearest integer would be
1) and no 1-pixel minimum is applied, so a degenerate zero dimension is
produced. -/
theorem short_side_truncated_not_rounded :
    (resizePlan 3 1 2).new_h = 0 ∧ ¬ (1 : ℤ) ≤ (resizePlan 3 1 2).new_h ∧
    round ((1 : ℚ) * ((2 : ℚ) / (3 : ℚ))) = 1 := by
  norm_num [resizePlan, pyInt, round_eq]

/-- C3 (amended): for every non-identity resize the short target side
is the scaled original side truncated toward zero — the floor
`short * target / long` — and it is at least 1 exactly when
`long ≤ short * target`; no 1-pixel minimum is enforced. -/
theorem resizePlan_short_side_floor (w h t : ℕ) (hw : 0 < w) (hh : 0 < h) (_ht : 0 < t)
    (_hne : max w h ≠ t) :
    (h ≤ w → (resizePlan w h t).new_h = ((h * t / w : ℕ) : ℤ) ∧
      ((1 : ℤ) ≤ (resizePlan w h t).new_h ↔ w ≤ h * t)) ∧
    (w < h → (resizePlan w h t).new_w = ((w * t / h : ℕ) : ℤ) ∧
      ((1 : ℤ) ≤ (resizePlan w h t).new_w ↔ h ≤ w * t)) := by
  constructor
  · intro hle
    rw [resizePlan_new_h_of_le w h t hle]
    exact ⟨rfl, by exact_mod_cast Nat.one_le_div_iff hw⟩
  · intro hlt
    rw [resizePlan_new_w_of_lt w h t hlt]
    exact ⟨rfl, by exact_mod_cast Nat.one_le_div_iff hh⟩

/-- C3 witness: a 3×2 image at target 6 gets short side
`2 * 6 / 3 = 4`. -/
theorem resizePlan_short_side_floor_witness :
    (resizePlan 3 2 6).new_h = ((2 * 6 / 3 : ℕ) : ℤ) :=
  (((resizePlan_short_side_floor 3 2 6 (by norm_num) (by norm_num) (by norm_num)
    (by norm_num)).1) (by norm_num)).1

/-- C9: the resize computation preserves the order of the two sides
(landscape stays landscape, portrait stays portrait), and neither
computed side ever exceeds the target edge. -/
theorem resizePlan_keeps_aspect_order (w h t : ℕ) (hw : 0 < w) (hh : 0 < h) (_ht : 0 < t) :
    (h ≤ w → (resizePlan w h t).new_h ≤ (resizePlan w h t).new_w) ∧
    (w < h → (resizePlan w h t).new_w ≤ (resizePlan w h t).new_h) ∧
    (resizePlan w h t).new_w ≤ (t : ℤ) ∧ (resizePlan w h t).new_h ≤ (t : ℤ) := by
  rcases le_or_lt h w with hle | hlt
  · rw [resizePlan_new_w_of_le w h t hle, resizePlan_new_h_of_le w h t hle]
    have hb : h * t / w ≤ t := short_le_target h t w hw hle
    exact ⟨fun _ => by exact_mod_cast hb, fun hlt' => absurd hle (not_le.2 hlt'),
      le_refl _, by exact_mod_cast hb⟩
  · rw [resizePlan_new_w_of_lt w h t hlt, resizePlan_new_h_of_lt w h t hlt]
    have hb : w * t / h ≤ t := short_le_target w t h hh hlt.le
    exact ⟨fun hle' => absurd hle' (not_le.2 hlt), fun _ => by exact_mod_cast hb,
      by exact_mod_cast hb, le_refl _⟩

/-- C9 witness: a 300×400 portrait stays portrait. -/
theorem resizePlan_keeps_aspect_order_witness :
    (resizePlan 300 400 1000).new_w ≤ (resizePlan 300 400 1000).new_h :=
  (resizePlan_keeps_aspect_order 300 400 1000 (by norm_num) (by norm_num)
    (by norm_num)).2.1 (by norm_num)

/-- C5: `resize_image_task` is a total function of its environment —
every task yields exactly one outcome; an `UnidentifiedImageError`
yields the `Skipped (Invalid/Corrupt Image)` result, any other decode
failure or a save failure yields an `Error (...)` result, and a clean
run yields the classified success result. -/
theorem resize_image_task_never_throws (env : TaskEnv) (t : ℕ) :
    (env.decode = DecodeOutcome.unidentified →
      resize_image_task env t =
        TaskOutcome.skipped ("Skipped (Invalid/Corrupt Image): " ++ env.name)) ∧
    (∀ msg, env.decode = DecodeOutcome.failed msg →
      resize_image_task env t =
        TaskOutcome.errored ("Error (" ++ env.name ++ "): " ++ msg)) ∧
    (∀ w h msg, env.decode = DecodeOutcome.ok w h → env.saveError = some msg →
      resize_image_task env t =
        TaskOutcome.errored ("Error (" ++ env.name ++ "): " ++ msg)) ∧
    (∀ w h, env.decode = DecodeOutcome.ok w h → env.saveError = none →
      resize_image_task env t =
        TaskOutcome.done (resizePlan w h t).action (resultMsg env.name w h (resizePlan w h t))) := by
  refine ⟨?_, ?_, ?_, ?_⟩ <;> intros <;> simp_all [resize_image_task]

/-- C5 witness: a corrupt file yields the Skipped result. -/
theorem resize_image_task_never_throws_witness :
    resize_image_task envSkipEx 1216 =
      TaskOutcome.skipped "Skipped (Invalid/Corrupt Image): bad.jpg" :=
  (resize_image_task_never_throws envSkipEx 1216).1 rfl

/-- C6 counterexample: a run of two tasks cancelled before consuming
any result logs the cancellation marker but then still ends with the
very same `finished` event as the uncancelled run — the cancelled run
terminates with the ordinary completion signal, not a distinct one. -/
theorem cancelled_run_ordinary_terminal :
    runTrace ["task one done", "task two done"] (some 0) =
      [Event.log cancelMsg, Event.finished] ∧
    (runTrace ["task one done", "task two done"] (some 0)).getLast? =
      (runTrace ["task one done", "task two done"] none).getLast? := by
  decide

/-- Closed form of the completion loop under cancellation: the results
consumed before the flag was observed, then the cancellation log. -/
theorem procEvents_cancel (rs : List String) :
    ∀ done k total, done ≤ k → k - done < rs.length →
      procEvents rs done total (some k) =
        procEvents (rs.take (k - done)) done total none ++ [Event.log cancelMsg] := by
  induction rs with
  | nil =>
    intro done k total _ hlen
    simp at hlen
  | cons r rs ih =>
    intro done k total hdk hlen
    by_cases hkd : k ≤ done
    · have h0 : k - done = 0 := by omega
      have hc : cancelObserved (some k) done = true := by
        simp [cancelObserved, hkd]
      simp [procEvents, hc, h0]
    · have hc1 : cancelObserved (some k) done = false := by
        simp [cancelObserved]
        omega
      have hc2 : cancelObserved none done = false := rfl
      have htake : (r :: rs).take (k - done) = r :: rs.take (k - (done + 1)) := by
        have hk : k - done = (k - (done + 1)) + 1 := by omega
        rw [hk, List.take_succ_cons]
      rw [htake]
      simp only [procEvents, hc1, hc2, Bool.false_eq_true, if_false]
      rw [ih (done + 1) k total (by omega) (by simp at hlen ⊢; omega)]
      simp

/-- C6 (amended): once the stop flag is observed the coordinator
consumes no further results; the trace is the normal processing of the
results that completed before the flag was seen, then the
`!!! Operation Cancelled !!!` log marker, and then the same `finished`
signal an uncancelled run ends with (so `job_finished` shows the
ordinary completion message). -/
theorem cancelled_run_trace (results : List String) (k : ℕ) (h : k < results.length) :
    runTrace results (some k) =
      procEvents (results.take k) 0 results.length none ++
        [Event.log cancelMsg, Event.finished] := by
  have hne : results.length ≠ 0 := by omega
  rw [runTrace, if_neg hne,
    procEvents_cancel results 0 k results.length (Nat.zero_le k) (by simpa using h)]
  simp

/-- C6 witness: two tasks, cancellation observed after one result. -/
theorem cancelled_run_trace_witness :
    runTrace ["one", "two"] (some 1) =
      procEvents (["one", "two"].take 1) 0 2 none ++ [Event.log cancelMsg, Event.finished] :=
  cancelled_run_trace ["one", "two"] 1 (by norm_num)

/-- C7: running the coordinator on an empty task list emits no per-task
events and exactly the completion signal, for any cancellation
state. -/
theorem empty_batch_completes (cancelAt : Option ℕ) :
    runTrace [] cancelAt = [Event.finished] := rfl

theorem collectNewFiles_cons (fs : FS) (p : String) (ps : List String) :
    collectNewFiles fs (p :: ps) = scanPath fs p ++ collectNewFiles fs ps := rfl

/-- A path that is neither a file nor a directory contributes no
files. -/
theorem scanPath_missing (fs : FS) (p : String) (hf : fs.isFile p = false)
    (hd : fs.isDir p = false) : scanPath fs p = [] := by
  simp [scanPath, hf, hd]

/-- C8 counterexample: handing the scanner an existing image together
with a non-existent path produces output identical to handing it the
existing image alone — the only log line is the generic
"Added 1 images" message; the non-existent path is silently dropped
with no warning naming it. -/
theorem missing_path_no_warning :
    process_incoming_paths fsEx [] ["good.jpg", "missing"] =
      process_incoming_paths fsEx [] ["good.jpg"] ∧
    (process_incoming_paths fsEx [] ["good.jpg", "missing"]).2 =
      ["Added 1 images to queue."] := by
  decide

/-- C8 (amended): a non-existent input path is excluded from the task
set and the batch proceeds, but no per-path warning is reported:
processing is observably identical to processing with every
non-existent path removed. -/
theorem missing_paths_excluded_silently (fs : FS) (input_files paths : List String) :
    process_incoming_paths fs input_files
        (paths.filter (fun p => fs.isFile p || fs.isDir p)) =
      process_incoming_paths fs input_files paths := by
  have hc : collectNewFiles fs (paths.filter (fun p => fs.isFile p || fs.isDir p)) =
      collectNewFiles fs paths := by
    induction paths with
    | nil => rfl
    | cons p ps ih =>
      by_cases hp : (fs.isFile p || fs.isDir p) = true
      · rw [List.filter_cons_of_pos (by simpa using hp), collectNewFiles_cons,
          collectNewFiles_cons, ih]
      · have h' : (fs.isFile p || fs.isDir p) = false := by
          simpa using hp
        obtain ⟨hf, hd⟩ := Bool.or_eq_false_iff.1 h'
        rw [List.filter_cons_of_neg (by simpa using hp), collectNewFiles_cons,
          scanPath_missing fs p hf hd, ih]
        rfl
  simp only [process_incoming_paths, hc]

/-- The tkinter pipeline maps a source under the scan root to the
output root (`<root>/Resized`) extended by the source path relative to
the root; sources in different relative locations map to distinct
destinations.  This is the mirrored-tree mapping the spec requires of
the destination resolver. -/
theorem tk_output_path_mirrors_structure (selected rel1 rel2 : List String)
    (hne : rel1 ≠ rel2) :
    tk_output_path selected (selected ++ rel1) = (selected ++ ["Resized"]) ++ rel1 ∧
    tk_output_path selected (selected ++ rel1) ≠ tk_output_path selected (selected ++ rel2) := by
  have h1 : ∀ r : List String,
      tk_output_path selected (selected ++ r) = (selected ++ ["Resized"]) ++ r := by
    intro r
    simp [tk_output_path, relpath, List.drop_left]
  refine ⟨h1 rel1, ?_⟩
  rw [h1 rel1, h1 rel2]
  intro hcontra
  exact hne (List.append_cancel_left hcontra)

/-- Instance of the mirrored mapping: two files in different subfolders
of the scan root map to the corresponding distinct subfolders of
`Resized`. -/
theorem tk_output_path_mirrors_structure_witness :
    tk_output_path ["Cats"] (["Cats"] ++ ["sub", "a.jpg"]) = ["Cats", "Resized", "sub", "a.jpg"] ∧
    tk_output_path ["Cats"] (["Cats"] ++ ["sub", "a.jpg"]) ≠
      tk_output_path ["Cats"] (["Cats"] ++ ["other", "a.jpg"]) := by
  have h := tk_output_path_mirrors_structure ["Cats"] ["sub", "a.jpg"] ["other", "a.jpg"]
    (by decide)
  exact ⟨h.1, h.2⟩

/-- C4: at a scan root `Cats` with sources `Cats/a/img.jpg` and
`Cats/b/img.jpg` and output folder `Cats/Resized`, the PyQt worker
(pir.pyw line 130, `output_folder / file_path.name`) sends both sources
to the flat destination `Cats/Resized/img.jpg` — the subdirectory
structure found by `rglob` is discarded and the two destinations
collide — whereas the tkinter resolver produces the claimed distinct
mirrored destinations `Cats/Resized/a/img.jpg` and
`Cats/Resized/b/img.jpg`. -/
theorem pyqt_output_discards_structure :
    pyqt_output_path ["Cats", "Resized"] ["Cats", "a", "img.jpg"] =
      ["Cats", "Resized", "img.jpg"] ∧
    pyqt_output_path ["Cats", "Resized"] ["Cats", "a", "img.jpg"] ≠
      ["Cats", "Resized", "a", "img.jpg"] ∧
    pyqt_output_path ["Cats", "Resized"] ["Cats", "a", "img.jpg"] =
      pyqt_output_path ["Cats", "Resized"] ["Cats", "b", "img.jpg"] ∧
    tk_output_path ["Cats"] ["Cats", "a", "img.jpg"] = ["Cats", "Resized", "a", "img.jpg"] ∧
    tk_output_path ["Cats"] ["Cats", "a", "img.jpg"] ≠
      tk_output_path ["Cats"] ["Cats", "b", "img.jpg"] := by
  decide

/-- C10: the PyQt worker builds the destination as the output folder
plus the base name only, so any two sources sharing a base name map to
the same destination path (the later write overwrites the earlier). -/
theorem pyqt_output_collision (output_folder f1 f2 : List String)
    (hname : baseName f1 = baseName f2) :
    pyqt_output_path output_folder f1 = output_folder ++ [baseName f1] ∧
    pyqt_output_path output_folder f1 = pyqt_output_path output_folder f2 :=
  ⟨rfl, by rw [pyqt_output_path, pyqt_output_path, hname]⟩

/-- C10 witness: `a/img.jpg` and `b/img.jpg` collide in the output
folder. -/
theorem pyqt_output_collision_witness :
    pyqt_output_path ["out"] ["a", "img.jpg"] = pyqt_output_path ["out"] ["b", "img.jpg"] :=
  (pyqt_output_collision ["out"] ["a", "img.jpg"] ["b", "img.jpg"] rfl).2

end PIR
